import Mathlib

/-!
Shallow embedding of the fleet control-plane of this repository:
the autoscaling controller (`chapters/chapter10/examples/autoscaling_config.py`)
and the session-aware load balancer (`chapters/chapter10/examples/load_balancing.py`).

Modelling conventions:
* Python `float` values (utilizations, latencies, rates) are embedded as `ℚ`;
  Python `int` values as `ℤ` (or `ℕ` for indices/counters that the source never
  makes negative by construction).
* Wall-clock time (`datetime.utcnow()` / `time.time()`) is passed explicitly as
  an integer number of seconds `now : ℤ`; all clock reads inside one method call
  are modelled as the same instant, so the simulated per-call elapsed time is 0.
* The trigger description strings built with Python f-strings are abstracted to
  a `Trigger` tag per threshold; the claims never inspect the formatted text.
* `should_scale_up` / `should_scale_down` return a bare `False` on their early
  paths but a `(bool, list)` tuple on the main path; this dynamic-typing fact is
  embedded faithfully as the sum type `CheckResult`, and the tuple unpacking in
  `evaluate_scaling` raises `TypeError` on the bare-`bool` alternative.
-/

deriving instance DecidableEq for Except

/-- Embeds `ScalingMetrics` dataclass of `autoscaling_config.py`. -/
structure ScalingMetrics where
  cpu_utilization : ℚ
  memory_utilization : ℚ
  concurrent_calls : ℤ
  stt_latency_ms : ℚ
  tts_latency_ms : ℚ
  error_rate : ℚ
  timestamp : ℤ
deriving Repr, DecidableEq

/-- One entry of the `scale_up_thresholds` / `scale_down_thresholds` dicts:
six keyed numeric thresholds over the metric fields. -/
structure Thresholds where
  cpu_utilization : ℚ
  memory_utilization : ℚ
  concurrent_calls : ℤ
  stt_latency_ms : ℚ
  tts_latency_ms : ℚ
  error_rate : ℚ
deriving Repr, DecidableEq

/-- Tag for a fired threshold; abstracts the f-string trigger messages the
source appends to its `triggers` lists. -/
inductive Trigger where
  | cpu
  | memory
  | calls
  | sttLatency
  | ttsLatency
  | errRate
deriving Repr, DecidableEq

/-- Embeds `ScalingDecision` dataclass; `reason` abstracts the "; "-joined trigger
strings to the list of fired triggers (empty for `maintain`). -/
structure ScalingDecision where
  action : String
  reason : List Trigger
  current_replicas : ℤ
  target_replicas : ℤ
  metrics : ScalingMetrics
  timestamp : ℤ
deriving Repr, DecidableEq

/-- Mutable state of `VoiceAIAutoScaler` (together with the embedded
`VoiceAIMetricsCollector`: `current_metrics` and `metrics_history`). -/
structure VoiceAIAutoScaler where
  current_replicas : ℤ
  min_replicas : ℤ
  max_replicas : ℤ
  target_cpu_utilization : ℚ
  target_memory_utilization : ℚ
  max_concurrent_calls_per_replica : ℤ
  max_latency_ms : ℚ
  max_error_rate : ℚ
  scale_up_thresholds : Thresholds
  scale_down_thresholds : Thresholds
  current_metrics : ScalingMetrics
  metrics_history : List ScalingMetrics
  max_history_size : ℕ
  scaling_history : List ScalingDecision
  last_scale_time : ℤ
  scale_cooldown_minutes : ℤ
deriving Repr, DecidableEq

namespace VoiceAIAutoScaler

/-- The zero metrics installed by `VoiceAIMetricsCollector.__init__`. -/
def zeroMetrics (now : ℤ) : ScalingMetrics :=
  { cpu_utilization := 0, memory_utilization := 0, concurrent_calls := 0,
    stt_latency_ms := 0, tts_latency_ms := 0, error_rate := 0, timestamp := now }

/-- Embeds `VoiceAIAutoScaler.__init__`: the literal field values of the source,
with `last_scale_time` set to the construction instant. -/
def init (now : ℤ) : VoiceAIAutoScaler :=
  { current_replicas := 2
    min_replicas := 2
    max_replicas := 20
    target_cpu_utilization := 70
    target_memory_utilization := 80
    max_concurrent_calls_per_replica := 50
    max_latency_ms := 500
    max_error_rate := 5 / 100
    scale_up_thresholds :=
      { cpu_utilization := 80, memory_utilization := 85, concurrent_calls := 45,
        stt_latency_ms := 400, tts_latency_ms := 400, error_rate := 3 / 100 }
    scale_down_thresholds :=
      { cpu_utilization := 30, memory_utilization := 40, concurrent_calls := 10,
        stt_latency_ms := 200, tts_latency_ms := 200, error_rate := 1 / 100 }
    current_metrics := zeroMetrics now
    metrics_history := []
    max_history_size := 1000
    scaling_history := []
    last_scale_time := now
    scale_cooldown_minutes := 5 }

/-- Embeds `VoiceAIMetricsCollector.update_metrics`: set the current sample, append it
to the history and pop the oldest entry when the bound is exceeded. -/
def update_metrics (s : VoiceAIAutoScaler) (m : ScalingMetrics) : VoiceAIAutoScaler :=
  let h := s.metrics_history ++ [m]
  { s with current_metrics := m
           metrics_history := if s.max_history_size < h.length then h.drop 1 else h }

/-- Return value of `should_scale_up` / `should_scale_down` as the source
actually produces it: a bare `bool` on the cooldown / replica-limit early
returns, a `(bool, triggers)` tuple on the main path. -/
inductive CheckResult where
  | bare (b : Bool)
  | pair (fired : Bool) (triggers : List Trigger)
deriving Repr, DecidableEq

/-- Length of the cooldown window in seconds:
`timedelta(minutes=self.scale_cooldown_minutes)`. -/
def cooldown_seconds (s : VoiceAIAutoScaler) : ℤ := 60 * s.scale_cooldown_minutes

/-- The trigger list built in the body of `should_scale_up` (each metric
strictly above its `scale_up_thresholds` entry contributes a trigger). -/
def up_trigger_list (s : VoiceAIAutoScaler) (m : ScalingMetrics) : List Trigger :=
  (if s.scale_up_thresholds.cpu_utilization < m.cpu_utilization then [.cpu] else []) ++
  (if s.scale_up_thresholds.memory_utilization < m.memory_utilization then [.memory] else []) ++
  (if s.scale_up_thresholds.concurrent_calls < m.concurrent_calls then [.calls] else []) ++
  (if s.scale_up_thresholds.stt_latency_ms < m.stt_latency_ms then [.sttLatency] else []) ++
  (if s.scale_up_thresholds.tts_latency_ms < m.tts_latency_ms then [.ttsLatency] else []) ++
  (if s.scale_up_thresholds.error_rate < m.error_rate then [.errRate] else [])

/-- The trigger list built in the body of `should_scale_down` (each metric
strictly below its `scale_down_thresholds` entry contributes a trigger). -/
def down_trigger_list (s : VoiceAIAutoScaler) (m : ScalingMetrics) : List Trigger :=
  (if m.cpu_utilization < s.scale_down_thresholds.cpu_utilization then [.cpu] else []) ++
  (if m.memory_utilization < s.scale_down_thresholds.memory_utilization then [.memory] else []) ++
  (if m.concurrent_calls < s.scale_down_thresholds.concurrent_calls then [.calls] else []) ++
  (if m.stt_latency_ms < s.scale_down_thresholds.stt_latency_ms then [.sttLatency] else []) ++
  (if m.tts_latency_ms < s.scale_down_thresholds.tts_latency_ms then [.ttsLatency] else []) ++
  (if m.error_rate < s.scale_down_thresholds.error_rate then [.errRate] else [])

/-- Embeds `VoiceAIAutoScaler.should_scale_up`. -/
def should_scale_up (s : VoiceAIAutoScaler) (m : ScalingMetrics) (now : ℤ) : CheckResult :=
  if now - s.last_scale_time < s.cooldown_seconds then .bare false
  else if s.max_replicas ≤ s.current_replicas then .bare false
  else .pair (decide (0 < (s.up_trigger_list m).length)) (s.up_trigger_list m)

/-- Embeds `VoiceAIAutoScaler.should_scale_down`. -/
def should_scale_down (s : VoiceAIAutoScaler) (m : ScalingMetrics) (now : ℤ) : CheckResult :=
  if now - s.last_scale_time < s.cooldown_seconds then .bare false
  else if s.current_replicas ≤ s.min_replicas then .bare false
  else .pair (decide (0 < (s.down_trigger_list m).length)) (s.down_trigger_list m)

/-- Embeds `VoiceAIAutoScaler.calculate_target_replicas`. -/
def calculate_target_replicas (s : VoiceAIAutoScaler) (m : ScalingMetrics)
    (action : String) : ℤ :=
  let target : ℤ :=
    if action = "scale_up" then
      let scale_factors : List ℚ :=
        (if s.target_cpu_utilization < m.cpu_utilization then
          [m.cpu_utilization / s.target_cpu_utilization] else []) ++
        (if s.target_memory_utilization < m.memory_utilization then
          [m.memory_utilization / s.target_memory_utilization] else []) ++
        (if s.max_concurrent_calls_per_replica < m.concurrent_calls then
          [(m.concurrent_calls : ℚ) / (s.max_concurrent_calls_per_replica : ℚ)] else []) ++
        (if s.max_latency_ms < m.stt_latency_ms then
          [m.stt_latency_ms / s.max_latency_ms] else [])
      match scale_factors with
      | [] => s.current_replicas + 1
      | f :: fs => ⌈(s.current_replicas : ℚ) * (fs.foldl max f)⌉
    else
      max s.min_replicas (s.current_replicas - 1)
  max s.min_replicas (min s.max_replicas target)

/-- Embeds `VoiceAIAutoScaler.evaluate_scaling`.  The first component is the Python
return value: `Except.error` models the `TypeError` raised when the bare-`bool`
return of a check function is tuple-unpacked; the second component is the
object state after the call (the metrics collector is already updated when the
unpacking fails). -/
def evaluate_scaling (s₀ : VoiceAIAutoScaler) (m : ScalingMetrics) (now : ℤ) :
    Except String ScalingDecision × VoiceAIAutoScaler :=
  let s := s₀.update_metrics m
  match s.should_scale_up m now with
  | .bare _ => (.error "TypeError: cannot unpack non-iterable bool", s)
  | .pair up up_triggers =>
    if up then
      let target := s.calculate_target_replicas m "scale_up"
      let d : ScalingDecision :=
        { action := "scale_up", reason := up_triggers,
          current_replicas := s.current_replicas, target_replicas := target,
          metrics := m, timestamp := now }
      (.ok d, { s with current_replicas := target, last_scale_time := now,
                       scaling_history := s.scaling_history ++ [d] })
    else
      match s.should_scale_down m now with
      | .bare _ => (.error "TypeError: cannot unpack non-iterable bool", s)
      | .pair down down_triggers =>
        if down then
          let target := s.calculate_target_replicas m "scale_down"
          let d : ScalingDecision :=
            { action := "scale_down", reason := down_triggers,
              current_replicas := s.current_replicas, target_replicas := target,
              metrics := m, timestamp := now }
          (.ok d, { s with current_replicas := target, last_scale_time := now,
                           scaling_history := s.scaling_history ++ [d] })
        else
          (.ok { action := "maintain", reason := [],
                 current_replicas := s.current_replicas,
                 target_replicas := s.current_replicas,
                 metrics := m, timestamp := now }, s)

/-- State reached after a whole sequence of `evaluate_scaling` calls, each
with its own metric sample and clock reading. -/
def run_evaluations (s : VoiceAIAutoScaler) (l : List (ScalingMetrics × ℤ)) :
    VoiceAIAutoScaler :=
  l.foldl (fun st p => (st.evaluate_scaling p.1 p.2).2) s

end VoiceAIAutoScaler

/-- A metric sample that exceeds the cpu and concurrent-call scale-up
thresholds of the default configuration. -/
def hotSample (now : ℤ) : ScalingMetrics :=
  { cpu_utilization := 95, memory_utilization := 30, concurrent_calls := 60,
    stt_latency_ms := 100, tts_latency_ms := 100, error_rate := 0, timestamp := now }

/-! ## Claims C1, C2 and C3: the autoscaling controller -/

namespace VoiceAIAutoScaler

/-- Fact: `calculate_target_replicas` always lands in `[min_replicas, max_replicas]`
when the bounds are ordered. -/
lemma calculate_target_bounds (s : VoiceAIAutoScaler) (m : ScalingMetrics)
    (action : String) (h : s.min_replicas ≤ s.max_replicas) :
    s.min_replicas ≤ s.calculate_target_replicas m action ∧
    s.calculate_target_replicas m action ≤ s.max_replicas := by
  refine ⟨?_, ?_⟩
  · exact le_max_left _ _
  · exact max_le h (min_le_left _ _)

/-- The bounds fields are never written, and one `evaluate_scaling` call keeps
`current_replicas` within them. -/
lemma evaluate_scaling_step_bounds (s : VoiceAIAutoScaler) (m : ScalingMetrics)
    (now : ℤ)
    (hmin : s.min_replicas ≤ s.current_replicas)
    (hmax : s.current_replicas ≤ s.max_replicas) :
    (s.evaluate_scaling m now).2.min_replicas = s.min_replicas ∧
    (s.evaluate_scaling m now).2.max_replicas = s.max_replicas ∧
    (s.evaluate_scaling m now).2.min_replicas ≤
      (s.evaluate_scaling m now).2.current_replicas ∧
    (s.evaluate_scaling m now).2.current_replicas ≤
      (s.evaluate_scaling m now).2.max_replicas := by
  have hmM : s.min_replicas ≤ s.max_replicas := hmin.trans hmax
  have hb := calculate_target_bounds (s.update_metrics m) m "scale_up" hmM
  have hb' := calculate_target_bounds (s.update_metrics m) m "scale_down" hmM
  unfold evaluate_scaling
  rcases hup : (s.update_metrics m).should_scale_up m now with b | ⟨up, ts⟩
  · simp only [hup]
    simp [update_metrics, hmin, hmax]
  · rcases up with _ | _
    · rcases hdown : (s.update_metrics m).should_scale_down m now with b' | ⟨down, ts'⟩
      · simp only [hup, hdown]
        simp [update_metrics, hmin, hmax]
      · rcases down with _ | _
        · simp only [hup, hdown]
          simp [update_metrics, hmin, hmax]
        · simp only [hup, hdown]
          simp only [update_metrics] at hb' ⊢
          simp [hmin, hmax] at hb' ⊢
          exact ⟨hb'.1, hb'.2⟩
    · simp only [hup]
      simp only [update_metrics] at hb ⊢
      simp [hmin, hmax] at hb ⊢
      exact ⟨hb.1, hb.2⟩

end VoiceAIAutoScaler

/-- C1: starting from `minReplicas ≤ currentReplicas ≤ maxReplicas`, the
invariant holds again after every `evaluate_scaling` call, for every sequence
of calls and metric samples (crashing calls included — they leave the replica
fields untouched); the bounds themselves are never modified. -/
theorem replica_bounds_invariant (s : VoiceAIAutoScaler)
    (l : List (ScalingMetrics × ℤ))
    (hmin : s.min_replicas ≤ s.current_replicas)
    (hmax : s.current_replicas ≤ s.max_replicas) :
    (s.run_evaluations l).min_replicas = s.min_replicas ∧
    (s.run_evaluations l).max_replicas = s.max_replicas ∧
    (s.run_evaluations l).min_replicas ≤ (s.run_evaluations l).current_replicas ∧
    (s.run_evaluations l).current_replicas ≤ (s.run_evaluations l).max_replicas := by
  induction l generalizing s with
  | nil => exact ⟨rfl, rfl, hmin, hmax⟩
  | cons p ps ih =>
    obtain ⟨e1, e2, e3, e4⟩ :=
      VoiceAIAutoScaler.evaluate_scaling_step_bounds s p.1 p.2 hmin hmax
    have hrec : s.run_evaluations (p :: ps) =
        (s.evaluate_scaling p.1 p.2).2.run_evaluations ps := by
      simp [VoiceAIAutoScaler.run_evaluations]
    obtain ⟨f1, f2, f3, f4⟩ := ih (s.evaluate_scaling p.1 p.2).2 e3 e4
    rw [hrec]
    exact ⟨by rw [f1, e1], by rw [f2, e2], f3, f4⟩

/-- Witness for C1: the default controller fed a scale-up sample and then a
second sample inside the cooldown window. -/
theorem replica_bounds_invariant_witness :
    ((VoiceAIAutoScaler.init 0).run_evaluations
        [(hotSample 400, 400), (hotSample 460, 460)]).min_replicas =
      (VoiceAIAutoScaler.init 0).min_replicas ∧
    ((VoiceAIAutoScaler.init 0).run_evaluations
        [(hotSample 400, 400), (hotSample 460, 460)]).max_replicas =
      (VoiceAIAutoScaler.init 0).max_replicas ∧
    ((VoiceAIAutoScaler.init 0).run_evaluations
        [(hotSample 400, 400), (hotSample 460, 460)]).min_replicas ≤
      ((VoiceAIAutoScaler.init 0).run_evaluations
        [(hotSample 400, 400), (hotSample 460, 460)]).current_replicas ∧
    ((VoiceAIAutoScaler.init 0).run_evaluations
        [(hotSample 400, 400), (hotSample 460, 460)]).current_replicas ≤
      ((VoiceAIAutoScaler.init 0).run_evaluations
        [(hotSample 400, 400), (hotSample 460, 460)]).max_replicas :=
  replica_bounds_invariant (VoiceAIAutoScaler.init 0)
    [(hotSample 400, 400), (hotSample 460, 460)] (by decide) (by decide)

/-- C2 (code bug): the first call scales up (setting `last_scale_time`), and
the second call 60 s later — inside the 5-minute cooldown, with metrics that
would again trigger scale-up — raises `TypeError` instead of returning the
`maintain` decision the spec requires: the cooldown branch of
`should_scale_up` returns a bare `False`, which `evaluate_scaling`
tuple-unpacks. -/
theorem cooldown_second_call_type_error :
    (∃ d, ((VoiceAIAutoScaler.init 0).evaluate_scaling (hotSample 400) 400).1 =
        .ok d ∧ d.action = "scale_up") ∧
    (((VoiceAIAutoScaler.init 0).evaluate_scaling (hotSample 400) 400).2.evaluate_scaling
        (hotSample 460) 460).1 =
      .error "TypeError: cannot unpack non-iterable bool" := by
  constructor
  · refine ⟨{ action := "scale_up", reason := [.cpu, .calls], current_replicas := 2,
              target_replicas := 3, metrics := hotSample 400, timestamp := 400 },
      ?_, rfl⟩
    have hc : (⌈(19/7 : ℚ)⌉ : ℤ) = 3 := by
      rw [Int.ceil_eq_iff]
      constructor <;> norm_num
    norm_num [VoiceAIAutoScaler.evaluate_scaling, VoiceAIAutoScaler.update_metrics,
      VoiceAIAutoScaler.should_scale_up, VoiceAIAutoScaler.should_scale_down,
      VoiceAIAutoScaler.up_trigger_list, VoiceAIAutoScaler.down_trigger_list,
      VoiceAIAutoScaler.calculate_target_replicas, VoiceAIAutoScaler.init,
      VoiceAIAutoScaler.cooldown_seconds, VoiceAIAutoScaler.zeroMetrics, hotSample, hc]
  · norm_num [VoiceAIAutoScaler.evaluate_scaling, VoiceAIAutoScaler.update_metrics,
      VoiceAIAutoScaler.should_scale_up, VoiceAIAutoScaler.should_scale_down,
      VoiceAIAutoScaler.up_trigger_list, VoiceAIAutoScaler.down_trigger_list,
      VoiceAIAutoScaler.calculate_target_replicas, VoiceAIAutoScaler.init,
      VoiceAIAutoScaler.cooldown_seconds, VoiceAIAutoScaler.zeroMetrics, hotSample,
      Int.ceil_eq_iff]

namespace VoiceAIAutoScaler

/-- The spec's scale-up target formula (§4.5 step 4), written from the spec's
words: one ratio per metric that exceeds its respective target/limit,
`target = ceil(currentReplicas × max(ratios))` if any ratio was computed and
`currentReplicas + 1` otherwise, clamped to `[minReplicas, maxReplicas]`. -/
def spec_scale_up_target (s : VoiceAIAutoScaler) (m : ScalingMetrics) : ℤ :=
  let os : List (Option ℚ) :=
    [if s.target_cpu_utilization < m.cpu_utilization then
       some (m.cpu_utilization / s.target_cpu_utilization) else none,
     if s.target_memory_utilization < m.memory_utilization then
       some (m.memory_utilization / s.target_memory_utilization) else none,
     if s.max_concurrent_calls_per_replica < m.concurrent_calls then
       some ((m.concurrent_calls : ℚ) / (s.max_concurrent_calls_per_replica : ℚ)) else none,
     if s.max_latency_ms < m.stt_latency_ms then
       some (m.stt_latency_ms / s.max_latency_ms) else none]
  let raw : ℤ :=
    match os.reduceOption with
    | [] => s.current_replicas + 1
    | r :: rs => ⌈(s.current_replicas : ℚ) * (rs.foldl max r)⌉
  max s.min_replicas (min s.max_replicas raw)

/-- The source's scale-up computation agrees with the spec's formula. -/
lemma calc_eq_spec_up (s : VoiceAIAutoScaler) (m : ScalingMetrics) :
    s.calculate_target_replicas m "scale_up" = spec_scale_up_target s m := by
  unfold calculate_target_replicas spec_scale_up_target
  by_cases h1 : s.target_cpu_utilization < m.cpu_utilization <;>
  by_cases h2 : s.target_memory_utilization < m.memory_utilization <;>
  by_cases h3 : s.max_concurrent_calls_per_replica < m.concurrent_calls <;>
  by_cases h4 : s.max_latency_ms < m.stt_latency_ms <;>
  simp [h1, h2, h3, h4, List.reduceOption]

/-- With the cooldown elapsed, headroom below `max_replicas` and at least one
scale-up threshold exceeded, `should_scale_up` reports a firing tuple. -/
lemma should_scale_up_fires (s : VoiceAIAutoScaler) (m : ScalingMetrics) (now : ℤ)
    (hcool : ¬ now - s.last_scale_time < s.cooldown_seconds)
    (hlt : s.current_replicas < s.max_replicas)
    (htrig : s.scale_up_thresholds.cpu_utilization < m.cpu_utilization ∨
      s.scale_up_thresholds.memory_utilization < m.memory_utilization ∨
      s.scale_up_thresholds.concurrent_calls < m.concurrent_calls ∨
      s.scale_up_thresholds.stt_latency_ms < m.stt_latency_ms ∨
      s.scale_up_thresholds.tts_latency_ms < m.tts_latency_ms ∨
      s.scale_up_thresholds.error_rate < m.error_rate) :
    s.should_scale_up m now = .pair true (s.up_trigger_list m) := by
  have hpos : 0 < (s.up_trigger_list m).length := by
    unfold up_trigger_list
    simp only [List.length_append, apply_ite List.length, List.length_singleton,
      List.length_nil]
    rcases htrig with h | h | h | h | h | h <;> rw [if_pos h] <;> omega
  unfold should_scale_up
  rw [if_neg hcool, if_neg (not_le.mpr hlt), decide_eq_true hpos]

end VoiceAIAutoScaler

/-- C3: (a) every metric sample that passes the scale-up gate (cooldown
elapsed, below `max_replicas`, some scale-up threshold exceeded) yields a
`scale_up` decision whose `target_replicas` is exactly the spec formula —
`ceil(current × max ratio)` over the ratios of the exceeded target metrics,
`current + 1` with no ratio, clamped to the bounds; (b) every `scale_down`
decision carries `target_replicas = max(minReplicas, currentReplicas − 1)`. -/
theorem target_replica_formula (s : VoiceAIAutoScaler) (m : ScalingMetrics)
    (now : ℤ)
    (hmin : s.min_replicas ≤ s.current_replicas)
    (hmax : s.current_replicas ≤ s.max_replicas) :
    ((¬ now - s.last_scale_time < s.cooldown_seconds) →
     s.current_replicas < s.max_replicas →
     (s.scale_up_thresholds.cpu_utilization < m.cpu_utilization ∨
      s.scale_up_thresholds.memory_utilization < m.memory_utilization ∨
      s.scale_up_thresholds.concurrent_calls < m.concurrent_calls ∨
      s.scale_up_thresholds.stt_latency_ms < m.stt_latency_ms ∨
      s.scale_up_thresholds.tts_latency_ms < m.tts_latency_ms ∨
      s.scale_up_thresholds.error_rate < m.error_rate) →
     ∃ d, (s.evaluate_scaling m now).1 = .ok d ∧ d.action = "scale_up" ∧
       d.target_replicas = VoiceAIAutoScaler.spec_scale_up_target s m) ∧
    (∀ d, (s.evaluate_scaling m now).1 = .ok d → d.action = "scale_down" →
      d.target_replicas = max s.min_replicas (s.current_replicas - 1)) := by
  constructor
  · intro hcool hlt htrig
    have hup : (s.update_metrics m).should_scale_up m now =
        .pair true ((s.update_metrics m).up_trigger_list m) :=
      VoiceAIAutoScaler.should_scale_up_fires (s.update_metrics m) m now hcool hlt htrig
    unfold VoiceAIAutoScaler.evaluate_scaling
    simp only [hup, if_true]
    exact ⟨_, rfl, rfl,
      (VoiceAIAutoScaler.calc_eq_spec_up (s.update_metrics m) m : _)⟩
  · intro d hd hdact
    have hdown_target :
        (s.update_metrics m).calculate_target_replicas m "scale_down" =
          max s.min_replicas (s.current_replicas - 1) := by
      unfold VoiceAIAutoScaler.calculate_target_replicas
      rw [if_neg (by decide : ¬("scale_down" = "scale_up"))]
      simp only [VoiceAIAutoScaler.update_metrics]
      have hmM : s.min_replicas ≤ s.max_replicas := hmin.trans hmax
      have h1 : max s.min_replicas (s.current_replicas - 1) ≤ s.max_replicas :=
        max_le hmM (by omega)
      rw [min_eq_right h1, max_eq_right (le_max_left _ _)]
    unfold VoiceAIAutoScaler.evaluate_scaling at hd
    rcases hup : (s.update_metrics m).should_scale_up m now with b | ⟨up, ts⟩
    · simp only [hup] at hd
      simp at hd
    · rcases up with _ | _
      · rcases hdown : (s.update_metrics m).should_scale_down m now with b' | ⟨down, ts'⟩
        · simp only [hup, hdown] at hd
          simp at hd
        · rcases down with _ | _
          · simp only [hup, hdown] at hd
            simp at hd
            rw [← hd] at hdact
            simp at hdact
          · simp only [hup, hdown] at hd
            simp at hd
            rw [← hd]
            simpa using hdown_target
      · simp only [hup] at hd
        simp at hd
        rw [← hd] at hdact
        simp at hdact

/-- Witness for C3: the default controller at `t = 400` with the hot sample
(cpu and concurrent-call thresholds exceeded, cooldown elapsed). -/
theorem target_replica_formula_witness :
    ∃ d, ((VoiceAIAutoScaler.init 0).evaluate_scaling (hotSample 400) 400).1 =
        .ok d ∧ d.action = "scale_up" ∧
      d.target_replicas =
        VoiceAIAutoScaler.spec_scale_up_target (VoiceAIAutoScaler.init 0)
          (hotSample 400) :=
  (target_replica_formula (VoiceAIAutoScaler.init 0) (hotSample 400) 400
      (by decide) (by decide)).1
    (by decide) (by decide) (Or.inl (by decide))

/-! ## Load balancer (`load_balancing.py`)

The `weighted_round_robin` and `geographic` strategies of the source draw from
`random` and are outside this deterministic model; the claims only exercise
`round_robin`, `least_connections` and `session_aware`.  Session identifiers
(`uuid.uuid4()` in the source) are modelled as a fresh-counter `ℕ`. -/

/-- Embeds `Region` dataclass of `load_balancing.py`. -/
structure Region where
  region_id : String
  name : String
  location : String
  latency_ms : ℚ
  capacity : ℤ
  current_load : ℤ
  health_status : String
  last_health_check : ℤ
deriving Repr, DecidableEq

/-- Embeds `Instance` dataclass of `load_balancing.py`. -/
structure Instance where
  instance_id : String
  region_id : String
  ip_address : String
  port : ℤ
  health_status : String
  current_connections : ℤ
  max_connections : ℤ
  cpu_utilization : ℚ
  memory_utilization : ℚ
  last_health_check : ℤ
deriving Repr, DecidableEq

/-- One entry of a session's `conversation_history` list. -/
structure ChatMessage where
  role : String
  text : String
  timestamp : ℤ
deriving Repr, DecidableEq

/-- The session dict built by `SessionManager.create_session` (the always-empty
`context` dict is omitted). -/
structure Session where
  session_id : ℕ
  call_id : String
  user_id : String
  instance_id : String
  created_at : ℤ
  last_activity : ℤ
  conversation_history : List ChatMessage
deriving Repr, DecidableEq

/-- Embeds `CallRequest` dataclass; `audio_data : bytes` as a byte list. -/
structure CallRequest where
  call_id : String
  user_id : String
  user_location : String
  audio_data : List ℕ
  session_id : Option ℕ
  timestamp : Option ℤ
deriving Repr, DecidableEq

/-- State of `SessionManager`: the `sessions` dict as an insertion-ordered
association list (keys unique by construction in the source, since `uuid4`
keys are fresh), plus the fresh-id counter standing in for `uuid4`. -/
structure SessionManager where
  sessions : List (ℕ × Session)
  session_timeout : ℤ
  sticky_session_enabled : Bool
  next_session_id : ℕ
deriving Repr, DecidableEq

namespace SessionManager

/-- Embeds `SessionManager.__init__`. -/
def empty : SessionManager :=
  { sessions := [], session_timeout := 3600, sticky_session_enabled := true,
    next_session_id := 0 }

/-- Embeds `SessionManager.create_session`: allocate a fresh id, bind it to
`instance_id` and insert at the end (Python dict insertion order). -/
def create_session (sm : SessionManager) (call_id user_id instance_id : String)
    (now : ℤ) : ℕ × SessionManager :=
  let sid := sm.next_session_id
  let sess : Session :=
    { session_id := sid, call_id := call_id, user_id := user_id,
      instance_id := instance_id, created_at := now, last_activity := now,
      conversation_history := [] }
  (sid, { sm with sessions := sm.sessions ++ [(sid, sess)],
                  next_session_id := sid + 1 })

/-- Embeds `SessionManager.get_session`: expired entries (inactivity of at least
`session_timeout`) are reported not-found but kept in the dict; a live entry
has its `last_activity` refreshed to the lookup time, in place. -/
def get_session (sm : SessionManager) (sid : ℕ) (now : ℤ) :
    Option Session × SessionManager :=
  match sm.sessions.find? (fun p => p.1 == sid) with
  | none => (none, sm)
  | some (_, sess) =>
    if now - sess.last_activity < sm.session_timeout then
      let sess' := { sess with last_activity := now }
      (some sess',
       { sm with sessions :=
           sm.sessions.map (fun p => if p.1 == sid then (p.1, sess') else p) })
    else (none, sm)

/-- Embeds `SessionManager.get_instance_for_session`. -/
def get_instance_for_session (sm : SessionManager) (sid : ℕ) (now : ℤ) :
    Option String × SessionManager :=
  let r := sm.get_session sid now
  (r.1.map (·.instance_id), r.2)

/-- Embeds `SessionManager.update_session`, specialised to the patch the router
actually sends (a fresh `conversation_history`); refreshes `last_activity`
when — and only when — the key is present. -/
def update_session_history (sm : SessionManager) (sid : ℕ)
    (conv : List ChatMessage) (now : ℤ) : SessionManager :=
  if (sm.sessions.find? (fun p => p.1 == sid)).isSome then
    { sm with sessions :=
        sm.sessions.map (fun p =>
          if p.1 == sid then
            (p.1, { p.2 with conversation_history := conv, last_activity := now })
          else p) }
  else sm

end SessionManager

/-- The deterministic strategies of `GlobalLoadBalancer.strategies`. -/
inductive Strategy where
  | round_robin
  | least_connections
  | session_aware
deriving Repr, DecidableEq

/-- Embeds `LoadBalancerMetrics` dataclass. -/
structure LoadBalancerMetrics where
  total_requests : ℕ
  requests_per_region : List (String × ℕ)
  average_latency_ms : ℚ
  error_rate : ℚ
  active_sessions : ℕ
  timestamp : ℤ
deriving Repr, DecidableEq

/-- Return value of `route_call` (the Python result dict): either the routed
instance/region/session triple or the error-path dict. -/
inductive RouteResult where
  | success (instance_id : String) (region_id : String) (session_id : ℕ)
      (latency_ms : ℚ) (strategy_used : Strategy)
  | failure (error : String) (latency_ms : ℚ)
deriving Repr, DecidableEq

/-- The instance a result routed to, if any. -/
def RouteResult.routed_instance : RouteResult → Option String
  | .success iid _ _ _ _ => some iid
  | .failure _ _ => none

/-- State of `GlobalLoadBalancer` (regions and instances as insertion-ordered
lists standing for the Python dicts keyed by their ids). -/
structure GlobalLoadBalancer where
  regions : List Region
  instances : List Instance
  session_manager : SessionManager
  metrics : LoadBalancerMetrics
  current_strategy : Strategy
  round_robin_index : ℕ
deriving Repr, DecidableEq

namespace GlobalLoadBalancer

/-- Embeds `GlobalLoadBalancer.get_available_instances`: all instances whose status is
`healthy` or `degraded`. -/
def get_available_instances (lb : GlobalLoadBalancer) : List Instance :=
  lb.instances.filter
    (fun i => i.health_status == "healthy" || i.health_status == "degraded")

/-- Embeds `GlobalLoadBalancer._round_robin`: pick at the cyclic index, advance it. -/
def round_robin_pick (avail : List Instance) (idx : ℕ) : Option Instance × ℕ :=
  match avail with
  | [] => (none, idx)
  | _ :: _ => (avail.get? (idx % avail.length), idx + 1)

/-- Embeds `GlobalLoadBalancer._least_connections`: Python `min(..., key=...)`, which
keeps the first minimum. -/
def least_connections_pick (avail : List Instance) : Option Instance :=
  match avail with
  | [] => none
  | h :: t =>
    some (t.foldl
      (fun acc x => if x.current_connections < acc.current_connections then x else acc) h)

/-- Embeds `GlobalLoadBalancer._session_aware`: reuse the bound instance when it is
still listed, available and healthy; otherwise fall back to least connections.
The session lookup refreshes `last_activity`, hence the returned store. -/
def session_aware_pick (lb : GlobalLoadBalancer) (avail : List Instance)
    (sid? : Option ℕ) (now : ℤ) : Option Instance × SessionManager :=
  match avail with
  | [] => (none, lb.session_manager)
  | _ :: _ =>
    match sid? with
    | none => (least_connections_pick avail, lb.session_manager)
    | some sid =>
      let r := lb.session_manager.get_instance_for_session sid now
      match r.1 with
      | none => (least_connections_pick avail, r.2)
      | some iid =>
        match lb.instances.find? (fun i => i.instance_id == iid) with
        | none => (least_connections_pick avail, r.2)
        | some inst =>
          if avail.contains inst && inst.health_status == "healthy" then
            (some inst, r.2)
          else (least_connections_pick avail, r.2)

/-- Strategy dispatch of `route_call` (the selection step together with the
state it mutates: the round-robin cursor or the session store). -/
def select_instance (lb : GlobalLoadBalancer) (avail : List Instance)
    (req : CallRequest) (now : ℤ) : Option Instance × GlobalLoadBalancer :=
  match lb.current_strategy with
  | .round_robin =>
    let r := round_robin_pick avail lb.round_robin_index
    (r.1, { lb with round_robin_index := r.2 })
  | .least_connections => (least_connections_pick avail, lb)
  | .session_aware =>
    let r := session_aware_pick lb avail req.session_id now
    (r.1, { lb with session_manager := r.2 })

/-- Embeds `self.metrics.error_rate = min(1.0, self.metrics.error_rate + 0.01)`. -/
def bump_error_rate (m : LoadBalancerMetrics) : LoadBalancerMetrics :=
  { m with error_rate := min 1 (m.error_rate + 1 / 100) }

/-- Embeds `self.metrics.requests_per_region[region.region_id] += 1`. -/
def bump_region_count (counts : List (String × ℕ)) (rid : String) :
    List (String × ℕ) :=
  counts.map (fun p => if p.1 == rid then (p.1, p.2 + 1) else p)

/-- Embeds `selected_instance.current_connections` mutation, applied through the
shared `instances` dict (entries are keyed by `instance_id`). -/
def update_connection (insts : List Instance) (iid : String) (f : ℤ → ℤ) :
    List Instance :=
  insts.map (fun i =>
    if i.instance_id == iid then
      { i with current_connections := f i.current_connections }
    else i)

/-- The fixed conversation patch `route_call` writes into the session. -/
def demo_history (now : ℤ) : List ChatMessage :=
  [{ role := "user", text := "Hello", timestamp := now },
   { role := "assistant", text := "How can I help you?", timestamp := now }]

/-- Embeds `GlobalLoadBalancer.route_call`.  The per-call elapsed wall-clock time is
modelled as `0` (all clock reads collapse to `now`), so the latency sample fed
to the rolling average is `0`.  The source's two `raise` sites are the only
exceptions reachable in the body, and both are caught by its `except` handler,
so the embedding is a total function returning the handler's error dict. -/
def route_call (lb : GlobalLoadBalancer) (req : CallRequest) (now : ℤ) :
    RouteResult × GlobalLoadBalancer :=
  let avail := lb.get_available_instances
  if avail.isEmpty then
    (.failure "No healthy instances available" 0,
     { lb with metrics := bump_error_rate lb.metrics })
  else
    let sel? := lb.select_instance avail req now
    match sel?.1 with
    | none =>
      (.failure "No suitable instance found" 0,
       { sel?.2 with metrics := bump_error_rate sel?.2.metrics })
    | some sel =>
      let lb1 := sel?.2
      let sids :=
        match req.session_id with
        | some sid => (sid, lb1.session_manager)
        | none => lb1.session_manager.create_session req.call_id req.user_id
                    sel.instance_id now
      let insts1 := update_connection lb1.instances sel.instance_id (· + 1)
      let counts :=
        if (lb1.regions.find? (fun r => r.region_id == sel.region_id)).isSome then
          bump_region_count lb1.metrics.requests_per_region sel.region_id
        else lb1.metrics.requests_per_region
      let m1 :=
        { lb1.metrics with
            total_requests := lb1.metrics.total_requests + 1
            requests_per_region := counts
            average_latency_ms := (lb1.metrics.average_latency_ms + 0) / 2 }
      let sm2 := sids.2.update_session_history sids.1 (demo_history now) now
      let insts2 := update_connection insts1 sel.instance_id (fun c => max 0 (c - 1))
      (.success sel.instance_id sel.region_id sids.1 0 lb.current_strategy,
       { lb1 with instances := insts2, session_manager := sm2, metrics := m1 })

/-- Final state after routing a whole sequence of calls. -/
def run_routes (lb : GlobalLoadBalancer) (l : List (CallRequest × ℤ)) :
    GlobalLoadBalancer :=
  l.foldl (fun s p => (route_call s p.1 p.2).2) lb

/-- The per-call results of routing a sequence of calls. -/
def route_results (lb : GlobalLoadBalancer) : List (CallRequest × ℤ) → List RouteResult
  | [] => []
  | p :: ps =>
    let r := route_call lb p.1 p.2
    r.1 :: route_results r.2 ps

/-- Total number of connections currently accounted across the fleet. -/
def sum_connections (lb : GlobalLoadBalancer) : ℤ :=
  (lb.instances.map (·.current_connections)).sum

end GlobalLoadBalancer

/-! ## Session store lemmas -/

namespace SessionManager

/-- Behaviour of `find?` on a key-preserving per-entry rewrite of an association list. -/
lemma find?_map_keyed (l : List (ℕ × Session)) (f : ℕ × Session → ℕ × Session)
    (hf : ∀ p, (f p).1 = p.1) (sid : ℕ) :
    (l.map f).find? (fun p => p.1 == sid) =
      (l.find? (fun p => p.1 == sid)).map f := by
  rw [List.find?_map]
  have hfun : ((fun p : ℕ × Session => p.1 == sid) ∘ f) =
      (fun p : ℕ × Session => p.1 == sid) := by
    funext p
    simp [Function.comp, hf p]
  rw [hfun]

/-- The touch performed by `get_session` preserves every key. -/
lemma touch_preserves_keys (sid : ℕ) (sess' : Session) :
    ∀ p : ℕ × Session,
      ((fun p : ℕ × Session => if p.1 == sid then (p.1, sess') else p) p).1 = p.1 := by
  intro p
  by_cases h : p.1 == sid <;> simp [h]

/-- Scalar fields of the manager are untouched by `get_session`. -/
lemma get_session_fields (sm : SessionManager) (sid : ℕ) (now : ℤ) :
    (sm.get_session sid now).2.session_timeout = sm.session_timeout ∧
    (sm.get_session sid now).2.next_session_id = sm.next_session_id ∧
    (sm.get_session sid now).2.sticky_session_enabled = sm.sticky_session_enabled := by
  rcases h : sm.sessions.find? (fun p => p.1 == sid) with _ | ⟨k, sess⟩
  · simp [get_session, h]
  · by_cases ha : now - sess.last_activity < sm.session_timeout <;>
      simp [get_session, h, ha]

/-- On a live hit, `get_session` returns the touched session and rewrites
exactly the entries keyed by the looked-up id. -/
lemma get_session_live (sm : SessionManager) (sid : ℕ) (now : ℤ) (k : ℕ)
    (sess : Session)
    (hfind : sm.sessions.find? (fun p => p.1 == sid) = some (k, sess))
    (halive : now - sess.last_activity < sm.session_timeout) :
    (sm.get_session sid now).1 = some { sess with last_activity := now } ∧
    (sm.get_session sid now).2.sessions =
      sm.sessions.map (fun p =>
        if p.1 == sid then (p.1, { sess with last_activity := now }) else p) := by
  simp only [get_session, hfind]
  simp [halive]

/-- Sequence of `get_session` lookups at successive instants, threading the
store and recording whether every lookup hit. -/
def lookup_run (sm : SessionManager) (sid : ℕ) : List ℤ → Bool × SessionManager
  | [] => (true, sm)
  | t :: ts =>
    let r := sm.get_session sid t
    let rest := lookup_run r.2 sid ts
    (r.1.isSome && rest.1, rest.2)

/-- A session whose lookups are each within `session_timeout` of the previous
activity stays alive through the whole run. -/
lemma lookup_run_alive (ts : List ℤ) :
    ∀ (sm : SessionManager) (sid k : ℕ) (sess : Session) (t0 : ℤ),
    sm.sessions.find? (fun p => p.1 == sid) = some (k, sess) →
    sess.last_activity = t0 →
    List.Chain (fun a b => b - a < sm.session_timeout) t0 ts →
    (lookup_run sm sid ts).1 = true := by
  induction ts with
  | nil => intro sm sid k sess t0 _ _ _; rfl
  | cons t ts ih =>
    intro sm sid k sess t0 hfind hlast hchain
    rcases hchain with _ | ⟨hrel, hchain⟩
    have halive : t - sess.last_activity < sm.session_timeout := by
      rw [hlast]; exact hrel
    obtain ⟨h1, h2⟩ := get_session_live sm sid t k sess hfind halive
    have hk : k = sid := by
      have := List.find?_some hfind
      simpa using this
    have hfind' : (sm.get_session sid t).2.sessions.find? (fun p => p.1 == sid) =
        some (k, { sess with last_activity := t }) := by
      rw [h2, find?_map_keyed _ _ (touch_preserves_keys _ _), hfind]
      simp [hk]
    have htimeout : (sm.get_session sid t).2.session_timeout = sm.session_timeout :=
      (get_session_fields sm sid t).1
    have htail :
        (lookup_run (sm.get_session sid t).2 sid ts).1 = true := by
      refine ih (sm.get_session sid t).2 sid k { sess with last_activity := t } t
        hfind' rfl ?_
      rw [htimeout]
      exact hchain
    simp [lookup_run, h1, htail]

end SessionManager

/-! ## Router lemmas -/

namespace GlobalLoadBalancer

/-- The release `max(0, c − 1)` right after the `+ 1` acquisition restores
every connection counter, provided counters start non-negative. -/
lemma update_connection_bump_release (insts : List Instance) (iid : String)
    (h : ∀ i ∈ insts, 0 ≤ i.current_connections) :
    update_connection (update_connection insts iid (· + 1)) iid
      (fun c => max 0 (c - 1)) = insts := by
  unfold update_connection
  rw [List.map_map]
  conv_rhs => rw [← List.map_id insts]
  apply List.map_congr_left
  intro i hi
  by_cases hid : i.instance_id == iid
  · simp only [Function.comp, hid, if_pos]
    have : i.current_connections + 1 - 1 = i.current_connections := by ring
    simp [this, max_eq_right (h i hi)]
  · simp [Function.comp, hid]

/-- Strategy selection never touches instances, regions, metrics or the
strategy itself. -/
lemma select_instance_frame (lb : GlobalLoadBalancer) (avail : List Instance)
    (req : CallRequest) (now : ℤ) :
    (lb.select_instance avail req now).2.instances = lb.instances ∧
    (lb.select_instance avail req now).2.regions = lb.regions ∧
    (lb.select_instance avail req now).2.current_strategy = lb.current_strategy ∧
    (lb.select_instance avail req now).2.metrics = lb.metrics := by
  cases h : lb.current_strategy <;> simp [select_instance, h]

/-- One `route_call` leaves the instance list exactly as it was (the
acquisition is always released; error paths never touch the counters). -/
lemma route_call_preserves_instances (lb : GlobalLoadBalancer)
    (req : CallRequest) (now : ℤ)
    (h : ∀ i ∈ lb.instances, 0 ≤ i.current_connections) :
    (lb.route_call req now).2.instances = lb.instances := by
  unfold route_call
  by_cases he : lb.get_available_instances.isEmpty
  · simp [he]
  · simp only [he, Bool.false_eq_true, if_false]
    rcases hsel : (lb.select_instance lb.get_available_instances req now).1 with _ | sel
    · simp [hsel, (select_instance_frame lb _ req now).1]
    · simp only [hsel]
      have hframe := (select_instance_frame lb lb.get_available_instances req now).1
      simp only [hframe]
      exact update_connection_bump_release lb.instances sel.instance_id h

/-- When every instance is healthy the availability filter is the identity. -/
lemma get_available_all_healthy (lb : GlobalLoadBalancer)
    (hh : ∀ i ∈ lb.instances, i.health_status = "healthy") :
    lb.get_available_instances = lb.instances := by
  unfold get_available_instances
  apply List.filter_eq_self.mpr
  intro i hi
  simp [hh i hi]

/-- Fact: `_round_robin` on a non-empty list picks the cyclic index and advances. -/
lemma round_robin_pick_ne (avail : List Instance) (idx : ℕ) (h : avail ≠ []) :
    round_robin_pick avail idx = (avail.get? (idx % avail.length), idx + 1) := by
  cases avail with
  | nil => exact absurd rfl h
  | cons a t => rfl

/-- One round-robin `route_call` over an all-healthy fleet: the pick is the
instance at the cyclic cursor, the cursor advances by one, and the instance
list (with its counters) is unchanged. -/
lemma route_call_round_robin_step (lb : GlobalLoadBalancer) (req : CallRequest)
    (now : ℤ)
    (hs : lb.current_strategy = .round_robin)
    (hh : ∀ i ∈ lb.instances, i.health_status = "healthy")
    (hcc : ∀ i ∈ lb.instances, 0 ≤ i.current_connections)
    (hne : lb.instances ≠ [])
    (hreq : req.session_id = none) :
    ∃ inst,
      lb.instances[lb.round_robin_index % lb.instances.length]? = some inst ∧
      (lb.route_call req now).1 =
        .success inst.instance_id inst.region_id lb.session_manager.next_session_id 0
          lb.current_strategy ∧
      (lb.route_call req now).2.instances = lb.instances ∧
      (lb.route_call req now).2.current_strategy = lb.current_strategy ∧
      (lb.route_call req now).2.round_robin_index = lb.round_robin_index + 1 := by
  have havail : lb.get_available_instances = lb.instances := get_available_all_healthy lb hh
  have hlen : 0 < lb.instances.length := List.length_pos.mpr hne
  have hmod : lb.round_robin_index % lb.instances.length < lb.instances.length :=
    Nat.mod_lt _ hlen
  obtain ⟨inst, hget⟩ : ∃ inst,
      lb.instances[lb.round_robin_index % lb.instances.length]? = some inst :=
    ⟨_, List.getElem?_eq_getElem hmod⟩
  have hempty : lb.get_available_instances.isEmpty = false := by
    rw [havail, List.isEmpty_eq_false]
    exact hne
  have hpick : lb.select_instance lb.get_available_instances req now =
      (some inst, { lb with round_robin_index := lb.round_robin_index + 1 }) := by
    simp only [select_instance, hs]
    rw [havail, round_robin_pick_ne _ _ hne]
    simp [List.get?_eq_getElem?, hget]
  have hres : (lb.route_call req now).1 =
      .success inst.instance_id inst.region_id lb.session_manager.next_session_id 0
        lb.current_strategy := by
    unfold route_call
    simp only [hempty, Bool.false_eq_true, if_false, hpick]
    simp [hreq, SessionManager.create_session]
  have hinsts : (lb.route_call req now).2.instances = lb.instances := by
    unfold route_call
    simp only [hempty, Bool.false_eq_true, if_false, hpick]
    simpa using update_connection_bump_release lb.instances inst.instance_id hcc
  have hstrat : (lb.route_call req now).2.current_strategy = lb.current_strategy := by
    unfold route_call
    simp only [hempty, Bool.false_eq_true, if_false, hpick]
  have hrridx : (lb.route_call req now).2.round_robin_index =
      lb.round_robin_index + 1 := by
    unfold route_call
    simp only [hempty, Bool.false_eq_true, if_false, hpick]
  exact ⟨inst, hget, hres, hinsts, hstrat, hrridx⟩

end GlobalLoadBalancer

namespace SessionManager

/-- Full evaluation of `get_session` on a live hit. -/
lemma get_session_live_eq (sm : SessionManager) (sid : ℕ) (now : ℤ) (k : ℕ)
    (sess : Session)
    (hfind : sm.sessions.find? (fun p => p.1 == sid) = some (k, sess))
    (halive : now - sess.last_activity < sm.session_timeout) :
    sm.get_session sid now =
      (some { sess with last_activity := now },
       { sm with sessions :=
           sm.sessions.map (fun p =>
             if p.1 == sid then (p.1, { sess with last_activity := now }) else p) }) := by
  simp only [get_session, hfind]
  simp [halive]

/-- The history patch of `update_session` also preserves every key. -/
lemma patch_preserves_keys (sid : ℕ) (conv : List ChatMessage) (now : ℤ) :
    ∀ p : ℕ × Session,
      ((fun p : ℕ × Session =>
        if p.1 == sid then
          (p.1, { p.2 with conversation_history := conv, last_activity := now })
        else p) p).1 = p.1 := by
  intro p
  by_cases h : p.1 == sid <;> simp [h]

end SessionManager

namespace GlobalLoadBalancer

/-- The running minimum of the least-connections fold is one of the inputs. -/
lemma foldl_min_conn_mem (t : List Instance) :
    ∀ h : Instance,
      t.foldl (fun acc x =>
        if x.current_connections < acc.current_connections then x else acc) h ∈ h :: t := by
  induction t with
  | nil => intro h; simp
  | cons y ys ih =>
    intro h
    simp only [List.foldl_cons]
    rcases List.mem_cons.mp
        (ih (if y.current_connections < h.current_connections then y else h)) with hm | hm
    · by_cases hc : y.current_connections < h.current_connections
      · rw [if_pos hc] at hm ⊢
        rw [hm]
        simp
      · rw [if_neg hc] at hm ⊢
        rw [hm]
        simp
    · simp [List.mem_cons, hm]

/-- Fact: `_least_connections` always answers with a member of its input. -/
lemma least_connections_pick_mem (l : List Instance) (x : Instance)
    (h : least_connections_pick l = some x) : x ∈ l := by
  cases l with
  | nil => simp [least_connections_pick] at h
  | cons a t =>
    simp only [least_connections_pick, Option.some.injEq] at h
    rw [← h]
    exact foldl_min_conn_mem t a

/-- Membership in the availability snapshot. -/
lemma mem_get_available (lb : GlobalLoadBalancer) (i : Instance) :
    i ∈ lb.get_available_instances ↔
      i ∈ lb.instances ∧
        (i.health_status = "healthy" ∨ i.health_status = "degraded") := by
  unfold get_available_instances
  rw [List.mem_filter]
  simp

/-- Second-call core of the affinity argument: with a live session bound to a
still-listed, still-available, still-healthy instance, the session-aware
route reuses exactly that instance and keeps the caller's session id. -/
lemma route_call_bound_healthy (lb : GlobalLoadBalancer) (req : CallRequest)
    (now : ℤ) (sid : ℕ) (k : ℕ) (sess : Session) (inst : Instance)
    (hs : lb.current_strategy = .session_aware)
    (hreq : req.session_id = some sid)
    (hfind : lb.session_manager.sessions.find? (fun p => p.1 == sid) = some (k, sess))
    (halive : now - sess.last_activity < lb.session_manager.session_timeout)
    (hinstfind : lb.instances.find? (fun i => i.instance_id == sess.instance_id) =
      some inst)
    (hmem : inst ∈ lb.get_available_instances)
    (hhealthy : inst.health_status = "healthy") :
    (lb.route_call req now).1 =
      .success inst.instance_id inst.region_id sid 0 lb.current_strategy := by
  rcases hav : lb.get_available_instances with _ | ⟨a, rest⟩
  · rw [hav] at hmem
    simp at hmem
  have hmem' : inst ∈ a :: rest := by rw [← hav]; exact hmem
  have hempty : lb.get_available_instances.isEmpty = false := by
    rw [hav]
    rfl
  have hcont : (a :: rest).contains inst = true :=
    List.contains_iff_exists_mem_beq.mpr ⟨inst, hmem', by simp⟩
  have hpick : lb.select_instance lb.get_available_instances req now =
      (some inst,
       { lb with session_manager := (lb.session_manager.get_session sid now).2 }) := by
    simp only [select_instance, hs, hav, session_aware_pick, hreq,
      SessionManager.get_instance_for_session,
      SessionManager.get_session_live_eq lb.session_manager sid now k sess hfind halive,
      Option.map_some']
    rw [hinstfind]
    simp [hcont, hhealthy, List.mem_cons.mp hmem',
      SessionManager.get_session_live_eq lb.session_manager sid now k sess hfind halive]
  unfold route_call
  simp only [hempty, Bool.false_eq_true, if_false, hpick]
  simp [hreq]

/-- First-call core of the affinity argument: a sessionless `route_call` under
the session-aware strategy picks by least connections, binds a fresh session
id to the picked instance (appended at the end of the store, with
`last_activity` set to the call instant) and leaves the fleet unchanged. -/
lemma route_call_fresh_session (lb : GlobalLoadBalancer) (req : CallRequest)
    (now : ℤ)
    (hs : lb.current_strategy = .session_aware)
    (hreq : req.session_id = none)
    (hcc : ∀ i ∈ lb.instances, 0 ≤ i.current_connections)
    (hfresh : ∀ p ∈ lb.session_manager.sessions,
      p.1 ≠ lb.session_manager.next_session_id)
    (a : Instance) (rest : List Instance)
    (hav : lb.get_available_instances = a :: rest) :
    ∃ sel,
      least_connections_pick (a :: rest) = some sel ∧
      (lb.route_call req now).1 =
        .success sel.instance_id sel.region_id lb.session_manager.next_session_id 0
          lb.current_strategy ∧
      (lb.route_call req now).2.instances = lb.instances ∧
      (lb.route_call req now).2.current_strategy = lb.current_strategy ∧
      (lb.route_call req now).2.session_manager.session_timeout =
        lb.session_manager.session_timeout ∧
      (lb.route_call req now).2.session_manager.sessions =
        lb.session_manager.sessions ++
          [(lb.session_manager.next_session_id,
            { session_id := lb.session_manager.next_session_id,
              call_id := req.call_id, user_id := req.user_id,
              instance_id := sel.instance_id, created_at := now,
              last_activity := now,
              conversation_history := demo_history now })] := by
  have hempty : lb.get_available_instances.isEmpty = false := by
    rw [hav]
    rfl
  set sel := rest.foldl
    (fun acc x => if x.current_connections < acc.current_connections then x else acc) a
    with hseldef
  have hlc : least_connections_pick (a :: rest) = some sel := rfl
  have hpick : lb.select_instance lb.get_available_instances req now =
      (some sel, lb) := by
    simp only [select_instance, hs, hav, session_aware_pick, hreq, least_connections_pick]
    rw [← hs]
  have hnone : lb.session_manager.sessions.find?
      (fun p => p.1 == lb.session_manager.next_session_id) = none :=
    List.find?_eq_none.mpr (fun p hp => by simp [hfresh p hp])
  refine ⟨sel, hlc, ?_, ?_, ?_, ?_, ?_⟩
  · unfold route_call
    simp only [hempty, Bool.false_eq_true, if_false, hpick]
    simp [hreq, SessionManager.create_session]
  · unfold route_call
    simp only [hempty, Bool.false_eq_true, if_false, hpick]
    simpa using update_connection_bump_release lb.instances sel.instance_id hcc
  · unfold route_call
    simp only [hempty, Bool.false_eq_true, if_false, hpick]
  · unfold route_call
    simp only [hempty, Bool.false_eq_true, if_false, hpick]
    simp [hreq, SessionManager.create_session, SessionManager.update_session_history]
  · unfold route_call
    simp only [hempty, Bool.false_eq_true, if_false, hpick]
    simp only [hreq, SessionManager.create_session, SessionManager.update_session_history,
      List.find?_append, hnone, Option.none_or, List.map_append]
    rw [List.map_congr_left (fun p hp => if_neg (by simpa using hfresh p hp))]
    simp

end GlobalLoadBalancer

/-! Concrete fixtures for the router witnesses. -/

/-- Builder for concrete witness instances. -/
def mkWitnessInstance (id rid st : String) (cc : ℤ) : Instance :=
  { instance_id := id, region_id := rid, ip_address := "10.0.1.1", port := 8080,
    health_status := st, current_connections := cc, max_connections := 100,
    cpu_utilization := 40, memory_utilization := 50, last_health_check := 0 }

/-- Zeroed metrics record used by the witness balancers. -/
def witnessMetrics : LoadBalancerMetrics :=
  { total_requests := 0, requests_per_region := [("r1", 0)],
    average_latency_ms := 0, error_rate := 0, active_sessions := 0,
    timestamp := 0 }

/-- Witness region. -/
def witnessRegion : Region :=
  { region_id := "r1", name := "US East", location := "Virginia", latency_ms := 50,
    capacity := 1000, current_load := 0, health_status := "healthy",
    last_health_check := 0 }

/-- A balancer with two available instances, used by several witnesses. -/
def witnessLB : GlobalLoadBalancer :=
  { regions := [witnessRegion]
    instances := [mkWitnessInstance "i1" "r1" "healthy" 0,
                  mkWitnessInstance "i2" "r1" "healthy" 2]
    session_manager := SessionManager.empty
    metrics := witnessMetrics
    current_strategy := .least_connections
    round_robin_index := 0 }

/-- A balancer whose only instance is unhealthy. -/
def witnessLBDown : GlobalLoadBalancer :=
  { witnessLB with instances := [mkWitnessInstance "i1" "r1" "unhealthy" 0] }

/-- A witness request without a session. -/
def witnessReq (cid : String) : CallRequest :=
  { call_id := cid, user_id := "user-1", user_location := "New York, USA",
    audio_data := [], session_id := none, timestamp := none }

/-! ## Claim C4: session affinity -/

/-- C4: under the session-aware strategy, when a sessionless call is answered
with a fresh session id `S` bound to instance `iid`, a later call carrying
`S` — before the session times out, and while every instance named `iid` is
healthy — is routed back to `iid`. -/
theorem session_affinity (lb : GlobalLoadBalancer) (req1 req2 : CallRequest)
    (t1 t2 : ℤ) (iid rid : String) (S : ℕ) (lat : ℚ) (st : Strategy)
    (lb1 : GlobalLoadBalancer)
    (hs : lb.current_strategy = .session_aware)
    (h1 : req1.session_id = none)
    (hcc : ∀ i ∈ lb.instances, 0 ≤ i.current_connections)
    (hfresh : ∀ p ∈ lb.session_manager.sessions,
      p.1 ≠ lb.session_manager.next_session_id)
    (hroute1 : lb.route_call req1 t1 = (.success iid rid S lat st, lb1))
    (hhealthy : ∀ i ∈ lb.instances, i.instance_id = iid → i.health_status = "healthy")
    (h2 : req2.session_id = some S)
    (halive : t2 - t1 < lb.session_manager.session_timeout) :
    (lb1.route_call req2 t2).1.routed_instance = some iid := by
  rcases hav : lb.get_available_instances with _ | ⟨a, rest⟩
  · have hfail : (lb.route_call req1 t1).1 = .failure "No healthy instances available" 0 := by
      simp [GlobalLoadBalancer.route_call, hav]
    rw [hroute1] at hfail
    simp at hfail
  obtain ⟨sel, hlc, hres, hinsts, hstrat, htimeout, hsessions⟩ :=
    GlobalLoadBalancer.route_call_fresh_session lb req1 t1 hs h1 hcc hfresh a rest hav
  have hlb1 : (lb.route_call req1 t1).2 = lb1 := by rw [hroute1]
  rw [hroute1] at hres
  simp only [RouteResult.success.injEq] at hres
  obtain ⟨hiid, -, hS, -, -⟩ := hres
  rw [hlb1] at hinsts hstrat htimeout hsessions
  -- the session stored by the first call
  have hnone : lb.session_manager.sessions.find?
      (fun p => p.1 == lb.session_manager.next_session_id) = none :=
    List.find?_eq_none.mpr (fun p hp => by simp [hfresh p hp])
  have hfind1 : lb1.session_manager.sessions.find? (fun p => p.1 == S) =
      some (lb.session_manager.next_session_id,
        { session_id := lb.session_manager.next_session_id,
          call_id := req1.call_id, user_id := req1.user_id,
          instance_id := sel.instance_id, created_at := t1,
          last_activity := t1,
          conversation_history := GlobalLoadBalancer.demo_history t1 }) := by
    rw [hsessions, hS, List.find?_append, hnone]
    simp
  have hs2 : lb1.current_strategy = .session_aware := by rw [hstrat, hs]
  have halive2 : t2 - (t1 : ℤ) < lb1.session_manager.session_timeout := by
    rw [htimeout]
    exact halive
  -- the bound instance is still listed, available and healthy
  have hselmem : sel ∈ lb.instances := by
    have hmem := GlobalLoadBalancer.least_connections_pick_mem _ _ hlc
    rw [← hav] at hmem
    exact ((GlobalLoadBalancer.mem_get_available lb sel).mp hmem).1
  have hfindsome : (lb1.instances.find?
      (fun i => i.instance_id == sel.instance_id)).isSome := by
    rw [hinsts]
    exact List.find?_isSome.mpr ⟨sel, hselmem, by simp⟩
  obtain ⟨inst, hinstfind⟩ := Option.isSome_iff_exists.mp hfindsome
  have hinstid : inst.instance_id = sel.instance_id := by
    have := List.find?_some hinstfind
    simpa using this
  have hinstmem : inst ∈ lb.instances := by
    have := List.mem_of_find?_eq_some hinstfind
    rwa [hinsts] at this
  have hinsthealthy : inst.health_status = "healthy" :=
    hhealthy inst hinstmem (by rw [hinstid, ← hiid])
  have hmem2 : inst ∈ lb1.get_available_instances := by
    unfold GlobalLoadBalancer.get_available_instances
    rw [hinsts]
    exact List.mem_filter.mpr ⟨hinstmem, by simp [hinsthealthy]⟩
  have hcall2 := GlobalLoadBalancer.route_call_bound_healthy lb1 req2 t2 S
    lb.session_manager.next_session_id _ inst hs2 h2 hfind1 halive2
    (by rw [hinstfind]) hmem2 hinsthealthy
  rw [hcall2]
  simp [RouteResult.routed_instance, hinstid, hiid]

/-! ## Claim C5: failover without rebinding -/

/-- C5 (amended): when the instance bound to a live session is unhealthy (so
absent from the availability snapshot), a call carrying that session falls
back to the least-connections choice among the available instances — an
instance different from the bound one — but the stored session binding is NOT
rebound: it still names the old instance. -/
theorem affinity_failover_no_rebind (lb : GlobalLoadBalancer) (req : CallRequest)
    (now : ℤ) (sid k : ℕ) (sess : Session)
    (hs : lb.current_strategy = .session_aware)
    (hreq : req.session_id = some sid)
    (hfind : lb.session_manager.sessions.find? (fun p => p.1 == sid) = some (k, sess))
    (halive : now - sess.last_activity < lb.session_manager.session_timeout)
    (hunhealthy : ∀ i ∈ lb.instances, i.instance_id = sess.instance_id →
      i.health_status = "unhealthy")
    (a : Instance) (rest : List Instance)
    (hav : lb.get_available_instances = a :: rest) :
    ∃ sel,
      GlobalLoadBalancer.least_connections_pick (a :: rest) = some sel ∧
      (lb.route_call req now).1.routed_instance = some sel.instance_id ∧
      sel.instance_id ≠ sess.instance_id ∧
      ∃ sess',
        (lb.route_call req now).2.session_manager.sessions.find?
          (fun p => p.1 == sid) = some (k, sess') ∧
        sess'.instance_id = sess.instance_id := by
  have hempty : lb.get_available_instances.isEmpty = false := by
    rw [hav]
    rfl
  have hk : k = sid := by
    have := List.find?_some hfind
    simpa using this
  set sel := rest.foldl
    (fun acc x => if x.current_connections < acc.current_connections then x else acc) a
    with hseldef
  have hlc : GlobalLoadBalancer.least_connections_pick (a :: rest) = some sel := rfl
  have hpick : lb.select_instance lb.get_available_instances req now =
      (some sel,
       { lb with session_manager := (lb.session_manager.get_session sid now).2 }) := by
    simp only [GlobalLoadBalancer.select_instance, hs, hav,
      GlobalLoadBalancer.session_aware_pick, hreq,
      SessionManager.get_instance_for_session,
      SessionManager.get_session_live_eq lb.session_manager sid now k sess hfind halive,
      Option.map_some']
    rcases hif : lb.instances.find? (fun i => i.instance_id == sess.instance_id)
      with _ | inst
    · rw [hif]
      simp [GlobalLoadBalancer.least_connections_pick,
        SessionManager.get_session_live_eq lb.session_manager sid now k sess hfind halive]
    · rw [hif]
      have hbad : inst.health_status = "unhealthy" :=
        hunhealthy inst (List.mem_of_find?_eq_some hif)
          (by simpa using List.find?_some hif)
      simp [hbad, GlobalLoadBalancer.least_connections_pick,
        SessionManager.get_session_live_eq lb.session_manager sid now k sess hfind halive]
  have hselmem : sel ∈ lb.get_available_instances := by
    rw [hav]
    exact GlobalLoadBalancer.least_connections_pick_mem _ _ hlc
  have hselstatus :=
    ((GlobalLoadBalancer.mem_get_available lb sel).mp hselmem).2
  have hselinst : sel ∈ lb.instances :=
    ((GlobalLoadBalancer.mem_get_available lb sel).mp hselmem).1
  have hne : sel.instance_id ≠ sess.instance_id := by
    intro hcontra
    have := hunhealthy sel hselinst hcontra
    rw [this] at hselstatus
    rcases hselstatus with h | h <;> simp at h
  have hres : (lb.route_call req now).1 =
      .success sel.instance_id sel.region_id sid 0 lb.current_strategy := by
    unfold GlobalLoadBalancer.route_call
    simp only [hempty, Bool.false_eq_true, if_false, hpick]
    simp [hreq]
  have hsm : (lb.route_call req now).2.session_manager =
      ((lb.session_manager.get_session sid now).2).update_session_history sid
        (GlobalLoadBalancer.demo_history now) now := by
    unfold GlobalLoadBalancer.route_call
    simp only [hempty, Bool.false_eq_true, if_false, hpick]
    simp [hreq]
  have htouch : (lb.session_manager.get_session sid now).2.sessions.find?
      (fun p => p.1 == sid) = some (k, { sess with last_activity := now }) := by
    rw [(SessionManager.get_session_live_eq lb.session_manager sid now k sess
      hfind halive)]
    simp only
    rw [SessionManager.find?_map_keyed _ _ (SessionManager.touch_preserves_keys _ _),
      hfind]
    simp [hk]
  have hfinal : (lb.route_call req now).2.session_manager.sessions.find?
      (fun p => p.1 == sid) =
      some (k,
        { sess with
            last_activity := now
            conversation_history := GlobalLoadBalancer.demo_history now }) := by
    rw [hsm]
    unfold SessionManager.update_session_history
    rw [htouch]
    simp only [Option.isSome_some, if_true]
    rw [SessionManager.find?_map_keyed _ _
      (SessionManager.patch_preserves_keys sid (GlobalLoadBalancer.demo_history now) now),
      htouch]
    simp [hk]
  refine ⟨sel, hlc, ?_, hne, ?_⟩
  · rw [hres]
    rfl
  · exact ⟨_, hfinal, rfl⟩

/-! Fixtures for the affinity claims. -/

/-- The session bound to the unhealthy instance in the failover scenario. -/
def failoverSession : Session :=
  { session_id := 0, call_id := "c0", user_id := "user-1", instance_id := "i1",
    created_at := 0, last_activity := 0, conversation_history := [] }

/-- Balancer whose session 0 is bound to the unhealthy instance `i1` while
`i2` stays healthy. -/
def failoverLB : GlobalLoadBalancer :=
  { regions := [witnessRegion]
    instances := [mkWitnessInstance "i1" "r1" "unhealthy" 0,
                  mkWitnessInstance "i2" "r1" "healthy" 5]
    session_manager :=
      { sessions := [(0, failoverSession)], session_timeout := 3600,
        sticky_session_enabled := true, next_session_id := 1 }
    metrics := witnessMetrics
    current_strategy := .session_aware
    round_robin_index := 0 }

/-- A request carrying the bound session id 0. -/
def failoverReq : CallRequest :=
  { call_id := "c1", user_id := "user-1", user_location := "New York, USA",
    audio_data := [], session_id := some 0, timestamp := none }

/-- C5 counterexample: with the bound instance `i1` unhealthy, the call is
rerouted to `i2`, but the stored binding of session 0 still reads `i1` — the
claimed rebinding to the newly chosen instance does not happen. -/
theorem affinity_failover_counterexample :
    (failoverLB.route_call failoverReq 10).1.routed_instance = some "i2" ∧
    ((failoverLB.route_call failoverReq 10).2.session_manager.sessions.find?
        (fun p => p.1 == 0)).map (fun p => p.2.instance_id) = some "i1" ∧
    ("i1" : String) ≠ "i2" := by
  decide

/-- Witness for C5's amended statement at the failover fixtures. -/
theorem affinity_failover_no_rebind_witness :
    ∃ sel,
      GlobalLoadBalancer.least_connections_pick
        [mkWitnessInstance "i2" "r1" "healthy" 5] = some sel ∧
      (failoverLB.route_call failoverReq 10).1.routed_instance =
        some sel.instance_id ∧
      sel.instance_id ≠ failoverSession.instance_id ∧
      ∃ sess',
        (failoverLB.route_call failoverReq 10).2.session_manager.sessions.find?
          (fun p => p.1 == 0) = some (0, sess') ∧
        sess'.instance_id = failoverSession.instance_id :=
  affinity_failover_no_rebind failoverLB failoverReq 10 0 0 failoverSession
    rfl rfl (by decide) (by decide) (by decide)
    (mkWitnessInstance "i2" "r1" "healthy" 5) [] (by decide)

/-- Balancer for the affinity witness: both instances healthy, no sessions. -/
def sessionLB : GlobalLoadBalancer :=
  { witnessLB with current_strategy := .session_aware }

/-- Witness for C4: the sessionless call binds session 0 to `i1` (fewest
connections); the follow-up call carrying session 0 is routed back to `i1`. -/
theorem session_affinity_witness :
    ((sessionLB.route_call (witnessReq "c1") 10).2.route_call
        { witnessReq "c2" with session_id := some 0 } 100).1.routed_instance =
      some "i1" :=
  session_affinity sessionLB (witnessReq "c1")
    { witnessReq "c2" with session_id := some 0 } 10 100 "i1" "r1" 0 0
    .session_aware ((sessionLB.route_call (witnessReq "c1") 10).2)
    rfl rfl (by decide) (by decide)
    (Prod.ext (by decide) rfl)
    (by decide) rfl (by decide)

/-! ## Claim C8: round-robin distribution -/

/-- C8: with the round-robin strategy, three healthy instances and the cursor
at its initial value 0, six consecutive sessionless calls are routed to the
three instances in cyclic order of the instance list — two calls each. -/
theorem round_robin_cyclic (lb : GlobalLoadBalancer) (a b c : Instance)
    (r1 r2 r3 r4 r5 r6 : CallRequest) (t1 t2 t3 t4 t5 t6 : ℤ)
    (hinst : lb.instances = [a, b, c])
    (hs : lb.current_strategy = .round_robin)
    (hrr : lb.round_robin_index = 0)
    (hh : ∀ i ∈ lb.instances, i.health_status = "healthy")
    (hcc : ∀ i ∈ lb.instances, 0 ≤ i.current_connections)
    (h1 : r1.session_id = none) (h2 : r2.session_id = none)
    (h3 : r3.session_id = none) (h4 : r4.session_id = none)
    (h5 : r5.session_id = none) (h6 : r6.session_id = none) :
    (lb.route_results
        [(r1, t1), (r2, t2), (r3, t3), (r4, t4), (r5, t5), (r6, t6)]).map
        RouteResult.routed_instance =
      [some a.instance_id, some b.instance_id, some c.instance_id,
       some a.instance_id, some b.instance_id, some c.instance_id] := by
  have hne : lb.instances ≠ [] := by rw [hinst]; simp
  obtain ⟨x1, hg1, hres1, hins1, hstr1, hrr1⟩ :=
    GlobalLoadBalancer.route_call_round_robin_step lb r1 t1 hs hh hcc hne h1
  rw [hinst, hrr] at hg1
  simp at hg1
  subst hg1
  set s1 := (lb.route_call r1 t1).2 with hs1
  rw [hinst] at hins1
  rw [hs] at hstr1
  rw [hrr] at hrr1
  have hh1 : ∀ i ∈ s1.instances, i.health_status = "healthy" := by
    rw [hins1]; rw [hinst] at hh; exact hh
  have hcc1 : ∀ i ∈ s1.instances, 0 ≤ i.current_connections := by
    rw [hins1]; rw [hinst] at hcc; exact hcc
  have hne1 : s1.instances ≠ [] := by rw [hins1]; simp
  obtain ⟨x2, hg2, hres2, hins2, hstr2, hrr2⟩ :=
    GlobalLoadBalancer.route_call_round_robin_step s1 r2 t2 hstr1 hh1 hcc1 hne1 h2
  rw [hins1, hrr1] at hg2
  simp at hg2
  subst hg2
  set s2 := (s1.route_call r2 t2).2 with hs2
  rw [hins1] at hins2
  rw [hstr1] at hstr2
  rw [hrr1] at hrr2
  have hh2 : ∀ i ∈ s2.instances, i.health_status = "healthy" := by
    rw [hins2]; rw [hinst] at hh; exact hh
  have hcc2 : ∀ i ∈ s2.instances, 0 ≤ i.current_connections := by
    rw [hins2]; rw [hinst] at hcc; exact hcc
  have hne2 : s2.instances ≠ [] := by rw [hins2]; simp
  obtain ⟨x3, hg3, hres3, hins3, hstr3, hrr3⟩ :=
    GlobalLoadBalancer.route_call_round_robin_step s2 r3 t3 hstr2 hh2 hcc2 hne2 h3
  rw [hins2, hrr2] at hg3
  simp at hg3
  subst hg3
  set s3 := (s2.route_call r3 t3).2 with hs3
  rw [hins2] at hins3
  rw [hstr2] at hstr3
  rw [hrr2] at hrr3
  have hh3 : ∀ i ∈ s3.instances, i.health_status = "healthy" := by
    rw [hins3]; rw [hinst] at hh; exact hh
  have hcc3 : ∀ i ∈ s3.instances, 0 ≤ i.current_connections := by
    rw [hins3]; rw [hinst] at hcc; exact hcc
  have hne3 : s3.instances ≠ [] := by rw [hins3]; simp
  obtain ⟨x4, hg4, hres4, hins4, hstr4, hrr4⟩ :=
    GlobalLoadBalancer.route_call_round_robin_step s3 r4 t4 hstr3 hh3 hcc3 hne3 h4
  rw [hins3, hrr3] at hg4
  simp at hg4
  subst hg4
  set s4 := (s3.route_call r4 t4).2 with hs4
  rw [hins3] at hins4
  rw [hstr3] at hstr4
  rw [hrr3] at hrr4
  have hh4 : ∀ i ∈ s4.instances, i.health_status = "healthy" := by
    rw [hins4]; rw [hinst] at hh; exact hh
  have hcc4 : ∀ i ∈ s4.instances, 0 ≤ i.current_connections := by
    rw [hins4]; rw [hinst] at hcc; exact hcc
  have hne4 : s4.instances ≠ [] := by rw [hins4]; simp
  obtain ⟨x5, hg5, hres5, hins5, hstr5, hrr5⟩ :=
    GlobalLoadBalancer.route_call_round_robin_step s4 r5 t5 hstr4 hh4 hcc4 hne4 h5
  rw [hins4, hrr4] at hg5
  simp at hg5
  subst hg5
  set s5 := (s4.route_call r5 t5).2 with hs5
  rw [hins4] at hins5
  rw [hstr4] at hstr5
  rw [hrr4] at hrr5
  have hh5 : ∀ i ∈ s5.instances, i.health_status = "healthy" := by
    rw [hins5]; rw [hinst] at hh; exact hh
  have hcc5 : ∀ i ∈ s5.instances, 0 ≤ i.current_connections := by
    rw [hins5]; rw [hinst] at hcc; exact hcc
  have hne5 : s5.instances ≠ [] := by rw [hins5]; simp
  obtain ⟨x6, hg6, hres6, hres6', hins6, hstr6⟩ :=
    GlobalLoadBalancer.route_call_round_robin_step s5 r6 t6 hstr5 hh5 hcc5 hne5 h6
  rw [hins5, hrr5] at hg6
  simp at hg6
  subst hg6
  show ((lb.route_call r1 t1).1 :: (s1.route_call r2 t2).1 :: (s2.route_call r3 t3).1 ::
      (s3.route_call r4 t4).1 :: (s4.route_call r5 t5).1 ::
      (s5.route_call r6 t6).1 :: []).map RouteResult.routed_instance = _
  rw [hres1, hres2, hres3, hres4, hres5, hres6]
  simp [RouteResult.routed_instance]

/-! ## Claims C6 and C7: connection accounting and the no-instance failure -/

/-- C6: over any sequence of routed calls the fleet's connection counters are
exactly restored once each call completes (so their sum never goes negative
and returns to its pre-sequence value); in particular the error results leave
no counter incremented. -/
theorem connection_accounting (lb : GlobalLoadBalancer)
    (l : List (CallRequest × ℤ))
    (h : ∀ i ∈ lb.instances, 0 ≤ i.current_connections) :
    (lb.run_routes l).instances = lb.instances ∧
    (lb.run_routes l).sum_connections = lb.sum_connections ∧
    0 ≤ (lb.run_routes l).sum_connections := by
  have key : (lb.run_routes l).instances = lb.instances := by
    induction l generalizing lb with
    | nil => rfl
    | cons p ps ih =>
      have hstep := GlobalLoadBalancer.route_call_preserves_instances lb p.1 p.2 h
      have h' : ∀ i ∈ (lb.route_call p.1 p.2).2.instances,
          0 ≤ i.current_connections := by
        rw [hstep]; exact h
      have : lb.run_routes (p :: ps) = (lb.route_call p.1 p.2).2.run_routes ps := by
        simp [GlobalLoadBalancer.run_routes]
      rw [this, ih _ h', hstep]
  refine ⟨key, ?_, ?_⟩
  · unfold GlobalLoadBalancer.sum_connections
    rw [key]
  · unfold GlobalLoadBalancer.sum_connections
    rw [key]
    apply List.sum_nonneg
    intro x hx
    obtain ⟨i, hi, rfl⟩ := List.mem_map.mp hx
    exact h i hi

/-- C7: with no healthy or degraded instance at all, `route_call` returns the
`NoHealthyInstances`-style error dict of its exception handler (it does not
propagate the raise), only bumping the bounded error-rate counter. -/
theorem route_no_healthy_instances (lb : GlobalLoadBalancer)
    (req : CallRequest) (now : ℤ)
    (h : lb.get_available_instances = []) :
    lb.route_call req now =
      (.failure "No healthy instances available" 0,
       { lb with metrics := GlobalLoadBalancer.bump_error_rate lb.metrics }) := by
  simp [GlobalLoadBalancer.route_call, h]

/-- Witness for C6: two calls through `witnessLB`. -/
theorem connection_accounting_witness :
    (witnessLB.run_routes [(witnessReq "c1", 10), (witnessReq "c2", 20)]).instances =
      witnessLB.instances ∧
    (witnessLB.run_routes [(witnessReq "c1", 10), (witnessReq "c2", 20)]).sum_connections =
      witnessLB.sum_connections ∧
    0 ≤ (witnessLB.run_routes [(witnessReq "c1", 10), (witnessReq "c2", 20)]).sum_connections :=
  connection_accounting witnessLB [(witnessReq "c1", 10), (witnessReq "c2", 20)]
    (by decide)

/-- Witness for C7 at `witnessLBDown`. -/
theorem route_no_healthy_instances_witness :
    witnessLBDown.route_call (witnessReq "c1") 10 =
      (.failure "No healthy instances available" 0,
       { witnessLBDown with
           metrics := GlobalLoadBalancer.bump_error_rate witnessLBDown.metrics }) :=
  route_no_healthy_instances witnessLBDown (witnessReq "c1") 10 (by decide)

/-- A three-instance balancer in round-robin mode for the C8 witness. -/
def roundRobinLB : GlobalLoadBalancer :=
  { regions := [witnessRegion]
    instances := [mkWitnessInstance "a" "r1" "healthy" 0,
                  mkWitnessInstance "b" "r1" "healthy" 0,
                  mkWitnessInstance "c" "r1" "healthy" 0]
    session_manager := SessionManager.empty
    metrics := witnessMetrics
    current_strategy := .round_robin
    round_robin_index := 0 }

/-- Witness for C8 at `roundRobinLB`. -/
theorem round_robin_cyclic_witness :
    (roundRobinLB.route_results
        [(witnessReq "c1", 1), (witnessReq "c2", 2), (witnessReq "c3", 3),
         (witnessReq "c4", 4), (witnessReq "c5", 5), (witnessReq "c6", 6)]).map
        RouteResult.routed_instance =
      [some "a", some "b", some "c", some "a", some "b", some "c"] :=
  round_robin_cyclic roundRobinLB
    (mkWitnessInstance "a" "r1" "healthy" 0)
    (mkWitnessInstance "b" "r1" "healthy" 0)
    (mkWitnessInstance "c" "r1" "healthy" 0)
    (witnessReq "c1") (witnessReq "c2") (witnessReq "c3")
    (witnessReq "c4") (witnessReq "c5") (witnessReq "c6")
    1 2 3 4 5 6 rfl rfl rfl (by decide) (by decide)
    rfl rfl rfl rfl rfl rfl

/-! ## Claims C9 and C10: session expiry and touch-on-read -/

/-- An hour-old session used in the expired-lookup counterexample. -/
def staleSession : Session :=
  { session_id := 0, call_id := "call-1", user_id := "user-1", instance_id := "i1",
    created_at := 0, last_activity := 0, conversation_history := [] }

/-- A store holding only `staleSession`. -/
def staleStore : SessionManager :=
  { sessions := [(0, staleSession)], session_timeout := 3600,
    sticky_session_enabled := true, next_session_id := 1 }

/-- C9 counterexample: looking up a session whose `last_activity` is older than
`session_timeout` (age 4000 s > 3600 s) returns not-found, but the entry is
NOT removed from the store — `get_session` performs no lazy deletion. -/
theorem expired_lookup_keeps_entry :
    (staleStore.get_session 0 4000).1 = none ∧
    (staleStore.get_session 0 4000).2.sessions = [(0, staleSession)] ∧
    (staleStore.get_instance_for_session 0 4000).1 = none := by
  decide

/-- C9 (amended): for every stored session whose `last_activity` is at least
`session_timeout` old, `get_session` returns not-found and leaves the store
completely unchanged (no entry is removed); `get_instance_for_session`
likewise returns not-found. -/
theorem get_session_expired (sm : SessionManager) (sid : ℕ) (now : ℤ) (k : ℕ)
    (sess : Session)
    (hfind : sm.sessions.find? (fun p => p.1 == sid) = some (k, sess))
    (hexp : ¬ now - sess.last_activity < sm.session_timeout) :
    sm.get_session sid now = (none, sm) ∧
    sm.get_instance_for_session sid now = (none, sm) := by
  have h : sm.get_session sid now = (none, sm) := by
    simp only [SessionManager.get_session, hfind]
    simp [hexp]
  exact ⟨h, by simp [SessionManager.get_instance_for_session, h]⟩

/-- Witness for C9 at `staleStore`. -/
theorem get_session_expired_witness :
    staleStore.get_session 0 4000 = (none, staleStore) ∧
    staleStore.get_instance_for_session 0 4000 = (none, staleStore) :=
  get_session_expired staleStore 0 4000 0 staleSession (by decide) (by decide)

/-- C10: a lookup of a live session refreshes exactly that session's
`last_activity` to the lookup instant (every other stored field and every
other session is untouched), `get_instance_for_session` sees the binding, and
consequently lookups chained less than `session_timeout` apart keep the
session alive indefinitely: its TTL is measured from the last read. -/
theorem get_session_touch_on_read (sm : SessionManager) (sid : ℕ) (now : ℤ)
    (k : ℕ) (sess : Session)
    (hfind : sm.sessions.find? (fun p => p.1 == sid) = some (k, sess))
    (halive : now - sess.last_activity < sm.session_timeout) :
    (sm.get_session sid now).1 = some { sess with last_activity := now } ∧
    (sm.get_instance_for_session sid now).1 = some sess.instance_id ∧
    (sm.get_session sid now).2.sessions.find? (fun p => p.1 == sid) =
      some (k, { sess with last_activity := now }) ∧
    (∀ sid' : ℕ, sid' ≠ sid →
      (sm.get_session sid now).2.sessions.find? (fun p => p.1 == sid') =
        sm.sessions.find? (fun p => p.1 == sid')) ∧
    (sm.get_session sid now).2.session_timeout = sm.session_timeout ∧
    (sm.get_session sid now).2.next_session_id = sm.next_session_id ∧
    (∀ ts : List ℤ,
      List.Chain (fun a b => b - a < sm.session_timeout) now ts →
      (SessionManager.lookup_run (sm.get_session sid now).2 sid ts).1 = true) := by
  obtain ⟨h1, h2⟩ := SessionManager.get_session_live sm sid now k sess hfind halive
  have hk : k = sid := by
    have := List.find?_some hfind
    simpa using this
  have hfind' : (sm.get_session sid now).2.sessions.find? (fun p => p.1 == sid) =
      some (k, { sess with last_activity := now }) := by
    rw [h2, SessionManager.find?_map_keyed _ _ (SessionManager.touch_preserves_keys _ _), hfind]
    simp [hk]
  refine ⟨h1, ?_, hfind', ?_, (SessionManager.get_session_fields sm sid now).1,
    (SessionManager.get_session_fields sm sid now).2.1, ?_⟩
  · simp [SessionManager.get_instance_for_session, h1]
  · intro sid' hne
    rw [h2, SessionManager.find?_map_keyed _ _ (SessionManager.touch_preserves_keys _ _)]
    rcases hfd : sm.sessions.find? (fun p => p.1 == sid') with _ | ⟨k', s'⟩
    · rw [hfd]
      simp
    · have hk' : k' = sid' := by
        have := List.find?_some hfd
        simpa using this
      rw [hfd]
      simp [hk', hne]
  · intro ts hchain
    refine SessionManager.lookup_run_alive ts (sm.get_session sid now).2 sid k
      { sess with last_activity := now } now hfind' rfl ?_
    rw [(SessionManager.get_session_fields sm sid now).1]
    exact hchain

/-- A live session/store pair for the touch-on-read witness. -/
def liveStore : SessionManager :=
  { sessions := [(0, staleSession)], session_timeout := 3600,
    sticky_session_enabled := true, next_session_id := 1 }

/-- Witness for C10 at `liveStore`, looked up at `now = 100`. -/
theorem get_session_touch_on_read_witness :
    (liveStore.get_session 0 100).1 = some { staleSession with last_activity := 100 } ∧
    (liveStore.get_instance_for_session 0 100).1 = some "i1" ∧
    (SessionManager.lookup_run (liveStore.get_session 0 100).2 0 [3000, 6000]).1 = true := by
  obtain ⟨h1, h2, _, _, _, _, h7⟩ :=
    get_session_touch_on_read liveStore 0 100 0 staleSession (by decide) (by decide)
  exact ⟨h1, h2, h7 [3000, 6000]
    (List.Chain.cons (by decide) (List.Chain.cons (by decide) List.Chain.nil))⟩
